import Mathlib

/-! Bootstrap sequencer of `web/flutter_bootstrap.js`

The script registers one asynchronous handler with the external loader:

    _flutter.loader.load({
      onEntrypointLoaded: async function(engineInitializer) {
        document.getElementById('loading').style.display = 'none';
        const appRunner = await engineInitializer.initializeEngine();
        await appRunner.runApp();
      }
    });

The page is an explicit value, the collaborators (engine initializer, app
runner, loader) are parameters, and one invocation of the handler yields the
page it leaves, the ordered trace of what happened, and the state of the
promise the `async function` returned.
-/

namespace FlutterBootstrap

/-! ## Page state -/

/-- Inline style of an element: property names with their values, first entry wins. -/
abbrev Style := List (String × String)

/-- Reading `style[name]`: the value of the first entry for `name`, the empty
string when the property is not set. -/
def Style.getPropertyValue : Style → String → String
  | [], _ => ""
  | (k, w) :: rest, name => if k = name then w else Style.getPropertyValue rest name

/-- Assigning `style[name] = value`: the entry for `name` is overwritten in
place, or added when there is none. -/
def Style.setProperty : Style → String → String → Style
  | [], name, value => [(name, value)]
  | (k, w) :: rest, name, value =>
    if k = name then (k, value) :: rest else (k, w) :: Style.setProperty rest name value

/-- An element of the page: its `id` attribute and its inline style. -/
structure Element where
  id : String
  style : Style
deriving DecidableEq, Repr

/-- The page: its elements in tree order. An element reference is its position. -/
abbrev Document := List Element

/-- Lookup `document.getElementById(id)`: a reference to the first element in
tree order carrying that id, `none` (JavaScript `null`) when there is none. -/
def getElementById : Document → String → Option Nat
  | [], _ => none
  | e :: rest, id => if e.id = id then some 0 else (getElementById rest id).map (· + 1)

/-- Assignment `element.style[name] = value` through the reference `element`. -/
def Document.setStyle : Document → Nat → String → String → Document
  | [], _, _, _ => []
  | e :: rest, 0, name, value => { e with style := e.style.setProperty name value } :: rest
  | e :: rest, element + 1, name, value => e :: Document.setStyle rest element name value

/-- Reading `element.style[name]` through the reference `element`. -/
def Document.getStyle (document : Document) (element : Nat) (name : String) : Option String :=
  document[element]?.map (fun e => e.style.getPropertyValue name)

/-- The `display` value of the element with id `loading`, when the page has one. -/
def loadingDisplay (document : Document) : Option String :=
  (getElementById document "loading").bind (fun i => document.getStyle i "display")

/-! ## Errors and promises -/

/-- A value thrown or used as a rejection reason. -/
inductive JSError
  /-- the `TypeError` raised by reading property `property` of `null` -/
  | nullPropertyRead (property : String)
  /-- any value a collaborator throws or rejects with -/
  | thrown (value : String)
deriving DecidableEq, Repr

/-- How an awaited call ends. A call that throws synchronously and a call whose
promise rejects are both `rejected`: inside an `async function` either one
rejects the function's own promise with the same reason. `pending` is a promise
that never settles, so the `await` never resumes. -/
inductive Settled (α : Type)
  | fulfilled (value : α)
  | rejected (error : JSError)
  | pending

/-! ## Collaborators -/

/-- The app runner capability: `runApp()` may change the page and settles with
no value. -/
structure AppRunner where
  runApp : Document → Document × Settled Unit

/-- The engine initializer capability handed to the handler by the loader:
`initializeEngine()` may change the page and settles with an app runner. -/
structure EngineInitializer where
  initializeEngine : Document → Document × Settled AppRunner

/-- An app runner that leaves the page alone and only settles as given. -/
def AppRunner.returning (outcome : Settled Unit) : AppRunner :=
  { runApp := fun document => (document, outcome) }

/-- An engine initializer that leaves the page alone and only settles as given;
the `Settled Unit` inside is how the runner it yields will settle. -/
def EngineInitializer.returning (outcome : Settled (Settled Unit)) : EngineInitializer :=
  { initializeEngine := fun document =>
      (document,
        match outcome with
        | .fulfilled runOutcome => .fulfilled (AppRunner.returning runOutcome)
        | .rejected e => .rejected e
        | .pending => .pending) }

/-! ## Traces -/

/-- What one invocation of the handler does and observes, in order. -/
inductive Event
  /-- the lookup `document.getElementById(id)` and what it returned -/
  | getElementById (id : String) (found : Option Nat)
  /-- the write `element.style[property] = value` -/
  | setStyle (element : Nat) (property value : String)
  /-- the call `engineInitializer.initializeEngine()`; the first `await` begins -/
  | initializeEngineCalled
  /-- the first `await` resumes with the app runner -/
  | initializeEngineFulfilled (appRunner : AppRunner)
  /-- the first `await` resumes by throwing -/
  | initializeEngineRejected (error : JSError)
  /-- the call `appRunner.runApp()`; the second `await` begins -/
  | runAppCalled (appRunner : AppRunner)
  /-- the second `await` resumes -/
  | runAppFulfilled
  /-- the second `await` resumes by throwing -/
  | runAppRejected (error : JSError)

/-- A write to a style property. -/
def Event.isStyleWrite : Event → Bool
  | .setStyle _ _ _ => true
  | _ => false

/-- The call of `initializeEngine` or its settlement. -/
def Event.isInitializeEngine : Event → Bool
  | .initializeEngineCalled => true
  | .initializeEngineFulfilled _ => true
  | .initializeEngineRejected _ => true
  | _ => false

/-- The call of `runApp` or its settlement. -/
def Event.isRunApp : Event → Bool
  | .runAppCalled _ => true
  | .runAppFulfilled => true
  | .runAppRejected _ => true
  | _ => false

/-- The call of `initializeEngine`. -/
def Event.isInitializeEngineCall : Event → Bool
  | .initializeEngineCalled => true
  | _ => false

/-- The call of `runApp`. -/
def Event.isRunAppCall : Event → Bool
  | .runAppCalled _ => true
  | _ => false

/-- The lookup of an element. -/
def Event.isLookup : Event → Bool
  | .getElementById _ _ => true
  | _ => false

/-- A lookup that found no element (returned `null`). -/
def Event.isFailedLookup : Event → Bool
  | .getElementById _ none => true
  | _ => false

/-- An effect of the handler on its surroundings: a write to the page or a call
of a collaborator (lookups and settlements are what it observes). -/
def Event.isEffect (e : Event) : Bool :=
  e.isStyleWrite || e.isInitializeEngineCall || e.isRunAppCall

/-- The effect trace: the writes and collaborator calls of a trace, in order. -/
def effects (trace : List Event) : List Event :=
  trace.filter Event.isEffect

/-- The app runners on which `runApp` is called, in order. -/
def runAppTargets : List Event → List AppRunner
  | [] => []
  | .runAppCalled r :: rest => r :: runAppTargets rest
  | _ :: rest => runAppTargets rest

/-- The outcome of one invocation of the handler. -/
structure Run where
  /-- the page when the handler stops (returns, throws, or suspends for good) -/
  document : Document
  /-- what happened, in order -/
  trace : List Event
  /-- state of the promise returned by the `async function`; `fulfilled ()` is
  fulfilment with `undefined` -/
  result : Settled Unit

/-! ## The handler -/

/-- The handler `onEntrypointLoaded`, statement by statement. The source
comment over the first statement reads "Hide loading screen when app starts";
the statement itself runs first, before the engine is initialised and whether
or not the app ever starts. -/
def onEntrypointLoaded (engineInitializer : EngineInitializer) (document : Document) : Run :=
  -- document.getElementById('loading').style.display = 'none';
  match getElementById document "loading" with
  | none =>
    { document := document
      trace := [.getElementById "loading" none]
      result := .rejected (.nullPropertyRead "style") }
  | some loading =>
    let hidden := document.setStyle loading "display" "none"
    -- const appRunner = await engineInitializer.initializeEngine();
    match engineInitializer.initializeEngine hidden with
    | (initialized, .pending) =>
      { document := initialized
        trace := [.getElementById "loading" (some loading), .setStyle loading "display" "none",
          .initializeEngineCalled]
        result := .pending }
    | (initialized, .rejected e) =>
      { document := initialized
        trace := [.getElementById "loading" (some loading), .setStyle loading "display" "none",
          .initializeEngineCalled, .initializeEngineRejected e]
        result := .rejected e }
    | (initialized, .fulfilled appRunner) =>
      -- await appRunner.runApp();
      match appRunner.runApp initialized with
      | (running, .pending) =>
        { document := running
          trace := [.getElementById "loading" (some loading), .setStyle loading "display" "none",
            .initializeEngineCalled, .initializeEngineFulfilled appRunner,
            .runAppCalled appRunner]
          result := .pending }
      | (running, .rejected e) =>
        { document := running
          trace := [.getElementById "loading" (some loading), .setStyle loading "display" "none",
            .initializeEngineCalled, .initializeEngineFulfilled appRunner,
            .runAppCalled appRunner, .runAppRejected e]
          result := .rejected e }
      | (running, .fulfilled ()) =>
        { document := running
          trace := [.getElementById "loading" (some loading), .setStyle loading "display" "none",
            .initializeEngineCalled, .initializeEngineFulfilled appRunner,
            .runAppCalled appRunner, .runAppFulfilled]
          result := .fulfilled () }

/-! ## The script -/

/-- The configuration object the script passes to `load`. -/
structure LoadConfig where
  onEntrypointLoaded : EngineInitializer → Document → Run

/-- What the external loader does with the handler once `load` has been called:
it stops, or it invokes the handler with an engine initializer of its choice and
goes on as the page and the handler's promise then stand. The loader is code the
`{{flutter_js}}` placeholder brings in, so it is a parameter here. -/
inductive LoaderBehaviour
  | finish
  | invoke (engineInitializer : EngineInitializer)
      (next : Document → Settled Unit → LoaderBehaviour)

/-- What the loader's invocations of the handler add up to. The events of one
invocation are listed together, one invocation after the other. -/
structure Invocations where
  /-- the page after the last invocation -/
  document : Document
  /-- how many times the loader invoked the handler -/
  invocations : Nat
  /-- the events of the handler invocations -/
  trace : List Event

/-- The outcome of running the script. -/
structure ScriptRun where
  /-- the configurations `_flutter.loader.load` received, in order -/
  loadCalls : List LoadConfig
  /-- the page at the end -/
  document : Document
  /-- how many times the loader invoked the handler of the configuration -/
  invocations : Nat
  /-- the events of the handler invocations -/
  trace : List Event

/-- The loader at work on the handler it was given: each `invoke` of its
behaviour is one call `handler(engineInitializer)` on the page as it then is. -/
def LoaderBehaviour.drive :
    LoaderBehaviour → (EngineInitializer → Document → Run) → Document → Invocations
  | .finish, _, document => { document := document, invocations := 0, trace := [] }
  | .invoke engineInitializer next, handler, document =>
    let run := handler engineInitializer document
    let rest := (next run.document run.result).drive handler run.document
    { document := rest.document
      invocations := rest.invocations + 1
      trace := run.trace ++ rest.trace }

/-- The loader's `load(config)`: the call is recorded with the configuration it
received, and the handler the loader works on is `config.onEntrypointLoaded`. -/
def LoaderBehaviour.load (loader : LoaderBehaviour) (config : LoadConfig)
    (document : Document) : ScriptRun :=
  let driven := loader.drive config.onEntrypointLoaded document
  { loadCalls := [config]
    document := driven.document
    invocations := driven.invocations
    trace := driven.trace }

/-- The whole script: `_flutter.loader.load({ onEntrypointLoaded: ... })`. -/
def flutter_bootstrap (loader : LoaderBehaviour) (document : Document) : ScriptRun :=
  loader.load { onEntrypointLoaded := onEntrypointLoaded } document

/-! ## Sample pages and collaborators -/

/-- A page whose loading indicator is shown, next to the application host. -/
def pageWithLoading : Document :=
  [{ id := "app", style := [] },
   { id := "loading", style := [("color", "grey"), ("display", "flex")] }]

/-- A page that has no element with id `loading`. -/
def pageWithoutLoading : Document :=
  [{ id := "app", style := [] }]

/-- Collaborators that both succeed. -/
def workingInitializer : EngineInitializer :=
  EngineInitializer.returning (.fulfilled (.fulfilled ()))

/-- An engine initializer whose `initializeEngine` fails. -/
def failingInitializer : EngineInitializer :=
  EngineInitializer.returning (.rejected (.thrown "engine failed"))

/-- An engine initializer that succeeds and yields a runner whose `runApp` fails. -/
def failingRunnerInitializer : EngineInitializer :=
  EngineInitializer.returning (.fulfilled (.rejected (.thrown "app failed")))

/-- An engine initializer that looks at the page it is called on: it succeeds
when `loading` already shows `display = 'none'` and fails otherwise. -/
def hideCheckingInitializer : EngineInitializer :=
  { initializeEngine := fun document =>
      (document,
        if loadingDisplay document = some "none" then
          .fulfilled (AppRunner.returning (.fulfilled ()))
        else .rejected (.thrown "loading indicator still shown")) }

/-- The app runner of `recordingInitializer`: each `runApp()` adds an element
`flutter-view` at the end of the page. -/
def recordingRunner : AppRunner :=
  { runApp := fun document =>
      (document ++ [{ id := "flutter-view", style := [] }], .fulfilled ()) }

/-- An engine initializer that leaves a mark of every call on the page: each
`initializeEngine()` adds an element `engine` at the end of the page. -/
def recordingInitializer : EngineInitializer :=
  { initializeEngine := fun document =>
      (document ++ [{ id := "engine", style := [] }], .fulfilled recordingRunner) }

/-- A loader that invokes the handler once, with the recording initializer. -/
def loaderCallingOnce : LoaderBehaviour :=
  .invoke recordingInitializer (fun _ _ => .finish)

/-- A loader that invokes the handler three times, with collaborators that
would succeed. -/
def loaderCallingThrice : LoaderBehaviour :=
  .invoke workingInitializer (fun _ _ =>
    .invoke workingInitializer (fun _ _ =>
      .invoke workingInitializer (fun _ _ => .finish)))

/-! ## Facts about the page operations -/

theorem Style.getPropertyValue_setProperty (s : Style) (name value other : String) :
    (s.setProperty name value).getPropertyValue other =
      if other = name then value else s.getPropertyValue other := by
  induction s with
  | nil =>
    by_cases h : other = name
    · simp [Style.setProperty, Style.getPropertyValue, h]
    · have h2 : ¬ name = other := fun h3 => h h3.symm
      simp [Style.setProperty, Style.getPropertyValue, h, h2]
  | cons kv rest ih =>
    obtain ⟨k, w⟩ := kv
    by_cases hk : k = name
    · subst hk
      by_cases h : other = k
      · simp [Style.setProperty, Style.getPropertyValue, h]
      · have h2 : ¬ k = other := fun h3 => h h3.symm
        simp [Style.setProperty, Style.getPropertyValue, h, h2]
    · by_cases h : k = other
      · subst h
        simp [Style.setProperty, Style.getPropertyValue, hk]
      · simp [Style.setProperty, Style.getPropertyValue, hk, h, ih]

theorem Style.setProperty_setProperty (s : Style) (name value value2 : String) :
    (s.setProperty name value).setProperty name value2 = s.setProperty name value2 := by
  induction s with
  | nil => simp [Style.setProperty]
  | cons kv rest ih =>
    obtain ⟨k, w⟩ := kv
    by_cases hk : k = name
    · simp [Style.setProperty, hk]
    · simp [Style.setProperty, hk, ih]

theorem getElementById_setStyle (document : Document) (element : Nat)
    (name value id : String) :
    getElementById (document.setStyle element name value) id = getElementById document id := by
  induction document generalizing element with
  | nil => simp [Document.setStyle]
  | cons e rest ih =>
    cases element with
    | zero => simp [Document.setStyle, getElementById]
    | succ n => simp [Document.setStyle, getElementById, ih]

theorem Document.setStyle_setStyle (document : Document) (element : Nat)
    (name value value2 : String) :
    (document.setStyle element name value).setStyle element name value2 =
      document.setStyle element name value2 := by
  induction document generalizing element with
  | nil => simp [Document.setStyle]
  | cons e rest ih =>
    cases element with
    | zero => simp [Document.setStyle, Style.setProperty_setProperty]
    | succ n => simp [Document.setStyle, ih]

theorem Document.length_setStyle (document : Document) (element : Nat) (name value : String) :
    (document.setStyle element name value).length = document.length := by
  induction document generalizing element with
  | nil => simp [Document.setStyle]
  | cons e rest ih =>
    cases element with
    | zero => simp [Document.setStyle]
    | succ n => simp [Document.setStyle, ih]

theorem Document.getElem?_setStyle_ne (document : Document) (element other : Nat)
    (name value : String) (h : other ≠ element) :
    (document.setStyle element name value)[other]? = document[other]? := by
  induction document generalizing element other with
  | nil => simp [Document.setStyle]
  | cons e rest ih =>
    cases element with
    | zero =>
      cases other with
      | zero => exact absurd rfl h
      | succ m => simp [Document.setStyle]
    | succ n =>
      cases other with
      | zero => simp [Document.setStyle]
      | succ m =>
        have h2 : m ≠ n := fun h3 => h (by rw [h3])
        simp [Document.setStyle, ih n m h2]

theorem Document.getElem?_setStyle_eq (document : Document) (element : Nat)
    (name value : String) :
    (document.setStyle element name value)[element]? =
      document[element]?.map (fun e => { e with style := e.style.setProperty name value }) := by
  induction document generalizing element with
  | nil => simp [Document.setStyle]
  | cons e rest ih =>
    cases element with
    | zero => simp [Document.setStyle]
    | succ n => simp [Document.setStyle, ih]

theorem getElementById_some (document : Document) (id : String) (element : Nat)
    (h : getElementById document id = some element) :
    ∃ e, document[element]? = some e ∧ e.id = id := by
  induction document generalizing element with
  | nil => simp [getElementById] at h
  | cons e rest ih =>
    by_cases he : e.id = id
    · simp [getElementById, he] at h
      subst h
      exact ⟨e, by simp, he⟩
    · simp [getElementById, he] at h
      obtain ⟨n, hn, rfl⟩ := h
      obtain ⟨e2, h2, h3⟩ := ih n hn
      exact ⟨e2, by simpa using h2, h3⟩

theorem Document.getStyle_setStyle (document : Document) (element : Nat)
    (name value other : String) (e : Element) (h : document[element]? = some e) :
    (document.setStyle element name value).getStyle element other =
      some (if other = name then value else e.style.getPropertyValue other) := by
  simp [Document.getStyle, Document.getElem?_setStyle_eq, h, Style.getPropertyValue_setProperty]

theorem loadingDisplay_setStyle (document : Document) (loading : Nat)
    (h : getElementById document "loading" = some loading) :
    loadingDisplay (document.setStyle loading "display" "none") = some "none" := by
  obtain ⟨e, he, _⟩ := getElementById_some document "loading" loading h
  simp [loadingDisplay, getElementById_setStyle, h, Document.getStyle_setStyle _ _ _ _ _ e he]

/-! ## The handler, case by case -/

theorem onEntrypointLoaded_absent (ei : EngineInitializer) (document : Document)
    (h : getElementById document "loading" = none) :
    onEntrypointLoaded ei document =
      { document := document
        trace := [.getElementById "loading" none]
        result := .rejected (.nullPropertyRead "style") } := by
  simp [onEntrypointLoaded, h]

theorem onEntrypointLoaded_initializePending (ei : EngineInitializer) (document : Document)
    (loading : Nat) (h : getElementById document "loading" = some loading)
    (h2 : (ei.initializeEngine (document.setStyle loading "display" "none")).2 = .pending) :
    onEntrypointLoaded ei document =
      { document := (ei.initializeEngine (document.setStyle loading "display" "none")).1
        trace := [.getElementById "loading" (some loading), .setStyle loading "display" "none",
          .initializeEngineCalled]
        result := .pending } := by
  rcases hcall : ei.initializeEngine (document.setStyle loading "display" "none") with ⟨d, o⟩
  rw [hcall] at h2
  simp only at h2
  subst h2
  simp [onEntrypointLoaded, h, hcall]

theorem onEntrypointLoaded_initializeRejected (ei : EngineInitializer) (document : Document)
    (loading : Nat) (e : JSError) (h : getElementById document "loading" = some loading)
    (h2 : (ei.initializeEngine (document.setStyle loading "display" "none")).2 = .rejected e) :
    onEntrypointLoaded ei document =
      { document := (ei.initializeEngine (document.setStyle loading "display" "none")).1
        trace := [.getElementById "loading" (some loading), .setStyle loading "display" "none",
          .initializeEngineCalled, .initializeEngineRejected e]
        result := .rejected e } := by
  rcases hcall : ei.initializeEngine (document.setStyle loading "display" "none") with ⟨d, o⟩
  rw [hcall] at h2
  simp only at h2
  subst h2
  simp [onEntrypointLoaded, h, hcall]

theorem onEntrypointLoaded_runAppPending (ei : EngineInitializer) (document : Document)
    (loading : Nat) (r : AppRunner) (h : getElementById document "loading" = some loading)
    (h2 : (ei.initializeEngine (document.setStyle loading "display" "none")).2 = .fulfilled r)
    (h3 : (r.runApp (ei.initializeEngine (document.setStyle loading "display" "none")).1).2
      = .pending) :
    onEntrypointLoaded ei document =
      { document :=
          (r.runApp (ei.initializeEngine (document.setStyle loading "display" "none")).1).1
        trace := [.getElementById "loading" (some loading), .setStyle loading "display" "none",
          .initializeEngineCalled, .initializeEngineFulfilled r, .runAppCalled r]
        result := .pending } := by
  rcases hcall : ei.initializeEngine (document.setStyle loading "display" "none") with ⟨d, o⟩
  rw [hcall] at h2 h3
  simp only at h2 h3
  subst h2
  rcases hrun : r.runApp d with ⟨d2, o2⟩
  rw [hrun] at h3
  simp only at h3
  subst h3
  simp [onEntrypointLoaded, h, hcall, hrun]

theorem onEntrypointLoaded_runAppRejected (ei : EngineInitializer) (document : Document)
    (loading : Nat) (r : AppRunner) (e : JSError)
    (h : getElementById document "loading" = some loading)
    (h2 : (ei.initializeEngine (document.setStyle loading "display" "none")).2 = .fulfilled r)
    (h3 : (r.runApp (ei.initializeEngine (document.setStyle loading "display" "none")).1).2
      = .rejected e) :
    onEntrypointLoaded ei document =
      { document :=
          (r.runApp (ei.initializeEngine (document.setStyle loading "display" "none")).1).1
        trace := [.getElementById "loading" (some loading), .setStyle loading "display" "none",
          .initializeEngineCalled, .initializeEngineFulfilled r, .runAppCalled r,
          .runAppRejected e]
        result := .rejected e } := by
  rcases hcall : ei.initializeEngine (document.setStyle loading "display" "none") with ⟨d, o⟩
  rw [hcall] at h2 h3
  simp only at h2 h3
  subst h2
  rcases hrun : r.runApp d with ⟨d2, o2⟩
  rw [hrun] at h3
  simp only at h3
  subst h3
  simp [onEntrypointLoaded, h, hcall, hrun]

theorem onEntrypointLoaded_runAppFulfilled (ei : EngineInitializer) (document : Document)
    (loading : Nat) (r : AppRunner) (h : getElementById document "loading" = some loading)
    (h2 : (ei.initializeEngine (document.setStyle loading "display" "none")).2 = .fulfilled r)
    (h3 : (r.runApp (ei.initializeEngine (document.setStyle loading "display" "none")).1).2
      = .fulfilled ()) :
    onEntrypointLoaded ei document =
      { document :=
          (r.runApp (ei.initializeEngine (document.setStyle loading "display" "none")).1).1
        trace := [.getElementById "loading" (some loading), .setStyle loading "display" "none",
          .initializeEngineCalled, .initializeEngineFulfilled r, .runAppCalled r,
          .runAppFulfilled]
        result := .fulfilled () } := by
  rcases hcall : ei.initializeEngine (document.setStyle loading "display" "none") with ⟨d, o⟩
  rw [hcall] at h2 h3
  simp only at h2 h3
  subst h2
  rcases hrun : r.runApp d with ⟨d2, o2⟩
  rw [hrun] at h3
  simp only at h3
  subst h3
  simp [onEntrypointLoaded, h, hcall, hrun]

/-- Every trace of the handler has one of six shapes. -/
theorem onEntrypointLoaded_trace_cases (ei : EngineInitializer) (document : Document) :
    (getElementById document "loading" = none ∧
      (onEntrypointLoaded ei document).trace = [.getElementById "loading" none]) ∨
    ∃ loading, getElementById document "loading" = some loading ∧
      ((onEntrypointLoaded ei document).trace =
          [.getElementById "loading" (some loading), .setStyle loading "display" "none",
            .initializeEngineCalled] ∨
       (∃ e, (onEntrypointLoaded ei document).trace =
          [.getElementById "loading" (some loading), .setStyle loading "display" "none",
            .initializeEngineCalled, .initializeEngineRejected e]) ∨
       (∃ r, (onEntrypointLoaded ei document).trace =
          [.getElementById "loading" (some loading), .setStyle loading "display" "none",
            .initializeEngineCalled, .initializeEngineFulfilled r, .runAppCalled r]) ∨
       (∃ r e, (onEntrypointLoaded ei document).trace =
          [.getElementById "loading" (some loading), .setStyle loading "display" "none",
            .initializeEngineCalled, .initializeEngineFulfilled r, .runAppCalled r,
            .runAppRejected e]) ∨
       (∃ r, (onEntrypointLoaded ei document).trace =
          [.getElementById "loading" (some loading), .setStyle loading "display" "none",
            .initializeEngineCalled, .initializeEngineFulfilled r, .runAppCalled r,
            .runAppFulfilled])) := by
  cases h : getElementById document "loading" with
  | none => exact Or.inl ⟨rfl, by rw [onEntrypointLoaded_absent ei document h]⟩
  | some loading =>
    refine Or.inr ⟨loading, rfl, ?_⟩
    cases h2 : (ei.initializeEngine (document.setStyle loading "display" "none")).2 with
    | pending =>
      exact Or.inl (by rw [onEntrypointLoaded_initializePending ei document loading h h2])
    | rejected e =>
      exact Or.inr (Or.inl ⟨e, by
        rw [onEntrypointLoaded_initializeRejected ei document loading e h h2]⟩)
    | fulfilled r =>
      cases h3 : (r.runApp
          (ei.initializeEngine (document.setStyle loading "display" "none")).1).2 with
      | pending =>
        exact Or.inr (Or.inr (Or.inl ⟨r, by
          rw [onEntrypointLoaded_runAppPending ei document loading r h h2 h3]⟩))
      | rejected e =>
        exact Or.inr (Or.inr (Or.inr (Or.inl ⟨r, e, by
          rw [onEntrypointLoaded_runAppRejected ei document loading r e h h2 h3]⟩)))
      | fulfilled u =>
        cases u
        exact Or.inr (Or.inr (Or.inr (Or.inr ⟨r, by
          rw [onEntrypointLoaded_runAppFulfilled ei document loading r h h2 h3]⟩)))

/-- Once `initializeEngine`, called on the page after the hide, resolves to
`r`, the page the handler leaves and the state of its promise are those of
`r.runApp()` called on the page `initializeEngine` left. -/
theorem onEntrypointLoaded_initializeFulfilled (ei : EngineInitializer) (document : Document)
    (loading : Nat) (r : AppRunner) (h : getElementById document "loading" = some loading)
    (h2 : (ei.initializeEngine (document.setStyle loading "display" "none")).2
      = .fulfilled r) :
    (onEntrypointLoaded ei document).document =
        (r.runApp (ei.initializeEngine (document.setStyle loading "display" "none")).1).1 ∧
      (onEntrypointLoaded ei document).result =
        (r.runApp (ei.initializeEngine (document.setStyle loading "display" "none")).1).2 := by
  cases h3 : (r.runApp
      (ei.initializeEngine (document.setStyle loading "display" "none")).1).2 with
  | pending =>
    rw [onEntrypointLoaded_runAppPending ei document loading r h h2 h3]
    exact ⟨rfl, rfl⟩
  | rejected e =>
    rw [onEntrypointLoaded_runAppRejected ei document loading r e h h2 h3]
    exact ⟨rfl, rfl⟩
  | fulfilled u =>
    cases u
    rw [onEntrypointLoaded_runAppFulfilled ei document loading r h h2 h3]
    exact ⟨rfl, rfl⟩

/-- The trace of a run with `loading` present starts with the lookup, the hide
and the call of `initializeEngine`, and goes on without write, lookup or
further call of `initializeEngine`. -/
theorem onEntrypointLoaded_trace_start (ei : EngineInitializer) (document : Document)
    (loading : Nat) (h : getElementById document "loading" = some loading) :
    ∃ later : List Event,
      (onEntrypointLoaded ei document).trace =
        .getElementById "loading" (some loading) :: .setStyle loading "display" "none" ::
          .initializeEngineCalled :: later ∧
      ∀ e ∈ later, e.isStyleWrite = false ∧ e.isLookup = false ∧
        e.isInitializeEngineCall = false := by
  rcases onEntrypointLoaded_trace_cases ei document with ⟨h0, _⟩ | ⟨l, hl, hcases⟩
  · rw [h] at h0
    cases h0
  · rw [h] at hl
    cases hl
    rcases hcases with ht | ⟨e, ht⟩ | ⟨r, ht⟩ | ⟨r, e, ht⟩ | ⟨r, ht⟩
    · exact ⟨[], by rw [ht], by simp⟩
    · exact ⟨[.initializeEngineRejected e], by rw [ht], by
        simp [Event.isStyleWrite, Event.isLookup, Event.isInitializeEngineCall]⟩
    · exact ⟨[.initializeEngineFulfilled r, .runAppCalled r], by rw [ht], by
        simp [Event.isStyleWrite, Event.isLookup, Event.isInitializeEngineCall]⟩
    · exact ⟨[.initializeEngineFulfilled r, .runAppCalled r, .runAppRejected e], by rw [ht], by
        simp [Event.isStyleWrite, Event.isLookup, Event.isInitializeEngineCall]⟩
    · exact ⟨[.initializeEngineFulfilled r, .runAppCalled r, .runAppFulfilled], by rw [ht], by
        simp [Event.isStyleWrite, Event.isLookup, Event.isInitializeEngineCall]⟩

/-! ## Ordering -/

/-- C1. When the page has the element `loading`: (1) every trace of the
handler starts with the lookup, then the write `display := 'none'`, then the
call of `initializeEngine`, and whatever follows (the settlement of
`initializeEngine`, any `runApp` event) holds no further write, lookup or
`initializeEngine` call; (2) the page after that write shows
`display = 'none'` for `loading`, and it is on that page that
`initializeEngine` is called: the page the handler leaves and the state of its
promise are those of `initializeEngine` applied to the hidden page, followed,
when it resolves to `r`, by `r.runApp()` on the page `initializeEngine` left;
(3) the run does not depend on what `initializeEngine` would do on a page where
`loading` does not show `'none'`: two initializers that agree on every page
where it does give the same run. So the hide strictly precedes the call of
`initializeEngine`, hence its settlement, and every `runApp` event. -/
theorem hide_precedes_initializeEngine (ei : EngineInitializer) (document : Document)
    (loading : Nat) (h : getElementById document "loading" = some loading) :
    (∃ later : List Event,
      (onEntrypointLoaded ei document).trace =
        .getElementById "loading" (some loading) :: .setStyle loading "display" "none" ::
          .initializeEngineCalled :: later ∧
      ∀ e ∈ later, e.isStyleWrite = false ∧ e.isLookup = false ∧
        e.isInitializeEngineCall = false) ∧
    loadingDisplay (document.setStyle loading "display" "none") = some "none" ∧
    (∀ r, (ei.initializeEngine (document.setStyle loading "display" "none")).2 = .fulfilled r →
      (onEntrypointLoaded ei document).document =
          (r.runApp (ei.initializeEngine (document.setStyle loading "display" "none")).1).1 ∧
        (onEntrypointLoaded ei document).result =
          (r.runApp (ei.initializeEngine (document.setStyle loading "display" "none")).1).2) ∧
    (∀ e, (ei.initializeEngine (document.setStyle loading "display" "none")).2 = .rejected e →
      (onEntrypointLoaded ei document).document =
          (ei.initializeEngine (document.setStyle loading "display" "none")).1 ∧
        (onEntrypointLoaded ei document).result = .rejected e) ∧
    ((ei.initializeEngine (document.setStyle loading "display" "none")).2 = .pending →
      (onEntrypointLoaded ei document).document =
          (ei.initializeEngine (document.setStyle loading "display" "none")).1 ∧
        (onEntrypointLoaded ei document).result = .pending) ∧
    (∀ other : EngineInitializer,
      (∀ d, loadingDisplay d = some "none" →
        other.initializeEngine d = ei.initializeEngine d) →
      onEntrypointLoaded other document = onEntrypointLoaded ei document) := by
  have hshown := loadingDisplay_setStyle document loading h
  refine ⟨onEntrypointLoaded_trace_start ei document loading h, hshown, ?_, ?_, ?_, ?_⟩
  · intro r h2
    exact onEntrypointLoaded_initializeFulfilled ei document loading r h h2
  · intro e h2
    rw [onEntrypointLoaded_initializeRejected ei document loading e h h2]
    exact ⟨rfl, rfl⟩
  · intro h2
    rw [onEntrypointLoaded_initializePending ei document loading h h2]
    exact ⟨rfl, rfl⟩
  · intro other hagree
    simp only [onEntrypointLoaded, h, hagree _ hshown]

/-- C1 at the sample page, with an initializer that succeeds only when it is
called on a page where `loading` already shows `'none'`: the handler's promise
is fulfilled and the page left shows `'none'`. -/
theorem hide_precedes_initializeEngine_witness :
    getElementById pageWithLoading "loading" = some 1 ∧
      loadingDisplay pageWithLoading = some "flex" ∧
      (onEntrypointLoaded hideCheckingInitializer pageWithLoading).result = .fulfilled () ∧
      loadingDisplay (onEntrypointLoaded hideCheckingInitializer pageWithLoading).document =
        some "none" :=
  have key := hide_precedes_initializeEngine hideCheckingInitializer pageWithLoading 1
    (by decide)
  have run := key.2.2.1 (AppRunner.returning (.fulfilled ())) rfl
  ⟨by decide, by decide, run.2, run.1 ▸ key.2.1⟩

/-- C2. Every trace of the handler splits into a first part without any
`runApp` event and a second part made of `runApp` events only (so without any
`initializeEngine` event); when the second part is not empty, the first part
ends with the fulfilment of `initializeEngine`. So every `runApp` event comes
after `initializeEngine` has resolved, and the wait for `initializeEngine` is
over before the wait for `runApp` begins. -/
theorem runApp_after_initializeEngine_resolved (ei : EngineInitializer)
    (document : Document) :
    ∃ first second : List Event,
      (onEntrypointLoaded ei document).trace = first ++ second ∧
      (∀ e ∈ first, e.isRunApp = false) ∧
      (∀ e ∈ second, e.isRunApp = true ∧ e.isInitializeEngine = false) ∧
      (second = [] ∨ ∃ before r, first = before ++ [Event.initializeEngineFulfilled r]) := by
  rcases onEntrypointLoaded_trace_cases ei document with
    ⟨_, ht⟩ | ⟨l, _, ht | ⟨e, ht⟩ | ⟨r, ht⟩ | ⟨r, e, ht⟩ | ⟨r, ht⟩⟩
  · exact ⟨_, [], by rw [ht, List.append_nil], by simp [Event.isRunApp], by simp, Or.inl rfl⟩
  · exact ⟨_, [], by rw [ht, List.append_nil], by simp [Event.isRunApp], by simp, Or.inl rfl⟩
  · exact ⟨_, [], by rw [ht, List.append_nil], by simp [Event.isRunApp], by simp, Or.inl rfl⟩
  · refine ⟨[.getElementById "loading" (some l), .setStyle l "display" "none",
      .initializeEngineCalled, .initializeEngineFulfilled r], [.runAppCalled r], ?_, ?_, ?_, ?_⟩
    · rw [ht]; rfl
    · simp [Event.isRunApp]
    · simp [Event.isRunApp, Event.isInitializeEngine]
    · exact Or.inr ⟨[.getElementById "loading" (some l), .setStyle l "display" "none",
        .initializeEngineCalled], r, rfl⟩
  · refine ⟨[.getElementById "loading" (some l), .setStyle l "display" "none",
      .initializeEngineCalled, .initializeEngineFulfilled r],
      [.runAppCalled r, .runAppRejected e], ?_, ?_, ?_, ?_⟩
    · rw [ht]; rfl
    · simp [Event.isRunApp]
    · simp [Event.isRunApp, Event.isInitializeEngine]
    · exact Or.inr ⟨[.getElementById "loading" (some l), .setStyle l "display" "none",
        .initializeEngineCalled], r, rfl⟩
  · refine ⟨[.getElementById "loading" (some l), .setStyle l "display" "none",
      .initializeEngineCalled, .initializeEngineFulfilled r],
      [.runAppCalled r, .runAppFulfilled], ?_, ?_, ?_, ?_⟩
    · rw [ht]; rfl
    · simp [Event.isRunApp]
    · simp [Event.isRunApp, Event.isInitializeEngine]
    · exact Or.inr ⟨[.getElementById "loading" (some l), .setStyle l "display" "none",
        .initializeEngineCalled], r, rfl⟩

/-! ## Failures -/

/-- C3. When the page has the element `loading` and `initializeEngine`, called
on the page as the hide left it, fails with `e`: the trace is the lookup, the
write `display := 'none'`, the call and its rejection; the page on which
`initializeEngine` was called already shows `display = 'none'` for `loading`,
and so does the page the handler leaves unless `initializeEngine` changed that
value itself; `runApp` is called zero times; and the handler's promise rejects
with `e` itself. -/
theorem initializeEngine_rejection_propagates (ei : EngineInitializer) (document : Document)
    (loading : Nat) (e : JSError)
    (h : getElementById document "loading" = some loading)
    (h2 : (ei.initializeEngine (document.setStyle loading "display" "none")).2 = .rejected e) :
    (onEntrypointLoaded ei document).trace =
        [.getElementById "loading" (some loading), .setStyle loading "display" "none",
          .initializeEngineCalled, .initializeEngineRejected e] ∧
      loadingDisplay (document.setStyle loading "display" "none") = some "none" ∧
      (loadingDisplay (ei.initializeEngine (document.setStyle loading "display" "none")).1 =
          loadingDisplay (document.setStyle loading "display" "none") →
        loadingDisplay (onEntrypointLoaded ei document).document = some "none") ∧
      (onEntrypointLoaded ei document).trace.countP Event.isRunAppCall = 0 ∧
      (onEntrypointLoaded ei document).result = .rejected e := by
  rw [onEntrypointLoaded_initializeRejected ei document loading e h h2]
  refine ⟨rfl, loadingDisplay_setStyle document loading h, ?_, rfl, rfl⟩
  intro hkeep
  simp only [hkeep]
  exact loadingDisplay_setStyle document loading h

/-- C3 at the sample page with an initializer that fails: no `runApp` call, the
promise rejects with the initializer's error, `loading` shows `display = 'none'`. -/
theorem initializeEngine_rejection_propagates_witness :
    (onEntrypointLoaded failingInitializer pageWithLoading).trace =
        [.getElementById "loading" (some 1), .setStyle 1 "display" "none",
          .initializeEngineCalled, .initializeEngineRejected (.thrown "engine failed")] ∧
      loadingDisplay (onEntrypointLoaded failingInitializer pageWithLoading).document =
        some "none" ∧
      (onEntrypointLoaded failingInitializer pageWithLoading).trace.countP
        Event.isRunAppCall = 0 ∧
      (onEntrypointLoaded failingInitializer pageWithLoading).result =
        .rejected (.thrown "engine failed") :=
  have key := initializeEngine_rejection_propagates failingInitializer pageWithLoading 1
    (.thrown "engine failed") (by decide) rfl
  ⟨key.1, key.2.2.1 rfl, key.2.2.2.1, key.2.2.2.2⟩

/-- C4 as stated fails: on a page without the element `loading`, with
collaborators that would both succeed, the handler calls neither
`initializeEngine` nor `runApp`. -/
theorem missing_loading_blocks_later_steps :
    ¬ (getElementById pageWithoutLoading "loading" = none →
        0 < (onEntrypointLoaded workingInitializer pageWithoutLoading).trace.countP
            Event.isInitializeEngineCall ∧
          0 < (onEntrypointLoaded workingInitializer pageWithoutLoading).trace.countP
            Event.isRunAppCall) := by
  intro hclaim
  have h := (hclaim (by decide)).1
  rw [onEntrypointLoaded_absent workingInitializer pageWithoutLoading (by decide)] at h
  simp [Event.isInitializeEngineCall] at h

/-- C4, amended. When the lookup of `loading` returns `null`, reading `.style`
of it throws: the trace holds the lookup alone, so neither `initializeEngine`
nor `runApp` is called, the page is left as it was, and the handler's promise
rejects with that `TypeError`. -/
theorem missing_loading_rejects (ei : EngineInitializer) (document : Document)
    (h : getElementById document "loading" = none) :
    (onEntrypointLoaded ei document).trace = [.getElementById "loading" none] ∧
      effects (onEntrypointLoaded ei document).trace = [] ∧
      (onEntrypointLoaded ei document).document = document ∧
      (onEntrypointLoaded ei document).result = .rejected (.nullPropertyRead "style") := by
  rw [onEntrypointLoaded_absent ei document h]
  exact ⟨rfl, rfl, rfl, rfl⟩

/-- C4 amended, at the sample page without `loading`. -/
theorem missing_loading_rejects_witness :
    (onEntrypointLoaded workingInitializer pageWithoutLoading).trace =
        [.getElementById "loading" none] ∧
      effects (onEntrypointLoaded workingInitializer pageWithoutLoading).trace = [] ∧
      (onEntrypointLoaded workingInitializer pageWithoutLoading).document =
        pageWithoutLoading ∧
      (onEntrypointLoaded workingInitializer pageWithoutLoading).result =
        .rejected (.nullPropertyRead "style") :=
  missing_loading_rejects workingInitializer pageWithoutLoading (by decide)

/-- C7. When the page has the element `loading`, `initializeEngine` resolves
to `r` and `r.runApp()` then fails with `e`: the handler's promise rejects with
`e` itself; the trace is the lookup, the hide, the call and fulfilment of
`initializeEngine`, the call of `runApp` on `r` and its rejection, so each
collaborator is called exactly once and the hide is the only write; the page
is left exactly as `runApp` left it, so `loading` still shows
`display = 'none'` whenever the collaborators did not change that value
themselves. -/
theorem runApp_rejection_propagates (ei : EngineInitializer) (document : Document)
    (loading : Nat) (r : AppRunner) (e : JSError)
    (h : getElementById document "loading" = some loading)
    (h2 : (ei.initializeEngine (document.setStyle loading "display" "none")).2 = .fulfilled r)
    (h3 : (r.runApp (ei.initializeEngine (document.setStyle loading "display" "none")).1).2
      = .rejected e) :
    (onEntrypointLoaded ei document).result = .rejected e ∧
      (onEntrypointLoaded ei document).trace =
        [.getElementById "loading" (some loading), .setStyle loading "display" "none",
          .initializeEngineCalled, .initializeEngineFulfilled r, .runAppCalled r,
          .runAppRejected e] ∧
      (onEntrypointLoaded ei document).trace.countP Event.isInitializeEngineCall = 1 ∧
      (onEntrypointLoaded ei document).trace.countP Event.isRunAppCall = 1 ∧
      (onEntrypointLoaded ei document).trace.filter Event.isStyleWrite =
        [.setStyle loading "display" "none"] ∧
      (onEntrypointLoaded ei document).document =
        (r.runApp (ei.initializeEngine (document.setStyle loading "display" "none")).1).1 ∧
      (loadingDisplay
          (r.runApp (ei.initializeEngine (document.setStyle loading "display" "none")).1).1 =
          loadingDisplay (document.setStyle loading "display" "none") →
        loadingDisplay (onEntrypointLoaded ei document).document = some "none") := by
  rw [onEntrypointLoaded_runAppRejected ei document loading r e h h2 h3]
  refine ⟨rfl, rfl, rfl, rfl, rfl, rfl, ?_⟩
  intro hkeep
  simp only [hkeep]
  exact loadingDisplay_setStyle document loading h

/-- C7 at the sample page with a runner that fails: the promise rejects with
the runner's error and `loading` still shows `display = 'none'`. -/
theorem runApp_rejection_propagates_witness :
    (onEntrypointLoaded failingRunnerInitializer pageWithLoading).result =
        .rejected (.thrown "app failed") ∧
      loadingDisplay (onEntrypointLoaded failingRunnerInitializer pageWithLoading).document =
        some "none" :=
  have key := runApp_rejection_propagates failingRunnerInitializer pageWithLoading 1
    (AppRunner.returning (.rejected (.thrown "app failed"))) (.thrown "app failed")
    (by decide) rfl rfl
  ⟨key.1, key.2.2.2.2.2.2 rfl⟩

/-! ## Calls and their targets -/

/-- C5. In every run of the handler `initializeEngine` is called at most once
and `runApp` at most once. When `loading` is missing neither is applied: the
page is left as it was. When `loading` is present, `initializeEngine` is
applied once, to the page after the hide: if it fails or never settles, the
page left is the page it left and `runApp` is not applied; if it resolves to
`r`, each of the two is called exactly once, and the page left and the state of
the promise are those of `r.runApp()` applied once to the page
`initializeEngine` left. -/
theorem collaborators_called_at_most_once (ei : EngineInitializer) (document : Document) :
    (onEntrypointLoaded ei document).trace.countP Event.isInitializeEngineCall ≤ 1 ∧
    (onEntrypointLoaded ei document).trace.countP Event.isRunAppCall ≤ 1 ∧
    (getElementById document "loading" = none →
      (onEntrypointLoaded ei document).trace.countP Event.isInitializeEngineCall = 0 ∧
        (onEntrypointLoaded ei document).trace.countP Event.isRunAppCall = 0 ∧
        (onEntrypointLoaded ei document).document = document) ∧
    ∀ loading : Nat, getElementById document "loading" = some loading →
      (∀ e,
        (ei.initializeEngine (document.setStyle loading "display" "none")).2 = .rejected e →
        (onEntrypointLoaded ei document).trace.countP Event.isInitializeEngineCall = 1 ∧
          (onEntrypointLoaded ei document).trace.countP Event.isRunAppCall = 0 ∧
          (onEntrypointLoaded ei document).document =
            (ei.initializeEngine (document.setStyle loading "display" "none")).1 ∧
          (onEntrypointLoaded ei document).result = .rejected e) ∧
      ((ei.initializeEngine (document.setStyle loading "display" "none")).2 = .pending →
        (onEntrypointLoaded ei document).trace.countP Event.isInitializeEngineCall = 1 ∧
          (onEntrypointLoaded ei document).trace.countP Event.isRunAppCall = 0 ∧
          (onEntrypointLoaded ei document).document =
            (ei.initializeEngine (document.setStyle loading "display" "none")).1 ∧
          (onEntrypointLoaded ei document).result = .pending) ∧
      (∀ r,
        (ei.initializeEngine (document.setStyle loading "display" "none")).2 = .fulfilled r →
        (onEntrypointLoaded ei document).trace.countP Event.isInitializeEngineCall = 1 ∧
          (onEntrypointLoaded ei document).trace.countP Event.isRunAppCall = 1 ∧
          (onEntrypointLoaded ei document).document =
            (r.runApp
              (ei.initializeEngine (document.setStyle loading "display" "none")).1).1 ∧
          (onEntrypointLoaded ei document).result =
            (r.runApp
              (ei.initializeEngine (document.setStyle loading "display" "none")).1).2) := by
  refine ⟨?_, ?_, ?_, ?_⟩
  · rcases onEntrypointLoaded_trace_cases ei document with
      ⟨_, ht⟩ | ⟨l, _, ht | ⟨e, ht⟩ | ⟨r, ht⟩ | ⟨r, e, ht⟩ | ⟨r, ht⟩⟩ <;>
      rw [ht] <;> simp [List.countP_cons, Event.isInitializeEngineCall]
  · rcases onEntrypointLoaded_trace_cases ei document with
      ⟨_, ht⟩ | ⟨l, _, ht | ⟨e, ht⟩ | ⟨r, ht⟩ | ⟨r, e, ht⟩ | ⟨r, ht⟩⟩ <;>
      rw [ht] <;> simp [List.countP_cons, Event.isRunAppCall]
  · intro h
    rw [onEntrypointLoaded_absent ei document h]
    exact ⟨rfl, rfl, rfl⟩
  · intro loading h
    refine ⟨?_, ?_, ?_⟩
    · intro e h2
      rw [onEntrypointLoaded_initializeRejected ei document loading e h h2]
      exact ⟨rfl, rfl, rfl, rfl⟩
    · intro h2
      rw [onEntrypointLoaded_initializePending ei document loading h h2]
      exact ⟨rfl, rfl, rfl, rfl⟩
    · intro r h2
      refine ⟨?_, ?_, onEntrypointLoaded_initializeFulfilled ei document loading r h h2⟩
      · cases h3 : (r.runApp
            (ei.initializeEngine (document.setStyle loading "display" "none")).1).2 with
        | pending => rw [onEntrypointLoaded_runAppPending ei document loading r h h2 h3]; rfl
        | rejected e =>
          rw [onEntrypointLoaded_runAppRejected ei document loading r e h h2 h3]; rfl
        | fulfilled u =>
          cases u
          rw [onEntrypointLoaded_runAppFulfilled ei document loading r h h2 h3]; rfl
      · cases h3 : (r.runApp
            (ei.initializeEngine (document.setStyle loading "display" "none")).1).2 with
        | pending => rw [onEntrypointLoaded_runAppPending ei document loading r h h2 h3]; rfl
        | rejected e =>
          rw [onEntrypointLoaded_runAppRejected ei document loading r e h h2 h3]; rfl
        | fulfilled u =>
          cases u
          rw [onEntrypointLoaded_runAppFulfilled ei document loading r h h2 h3]; rfl

/-- C5 at the sample page with collaborators that each add an element to the
page when called: one call each in the trace, and the page left holds one
`engine` and one `flutter-view` element after the hidden `loading`. -/
theorem collaborators_called_at_most_once_witness :
    (onEntrypointLoaded recordingInitializer pageWithLoading).trace.countP
        Event.isInitializeEngineCall = 1 ∧
      (onEntrypointLoaded recordingInitializer pageWithLoading).trace.countP
        Event.isRunAppCall = 1 ∧
      (onEntrypointLoaded recordingInitializer pageWithLoading).document =
        [{ id := "app", style := [] },
         { id := "loading", style := [("color", "grey"), ("display", "none")] },
         { id := "engine", style := [] },
         { id := "flutter-view", style := [] }] :=
  have key := (collaborators_called_at_most_once recordingInitializer pageWithLoading).2.2.2 1
    (by decide)
  have once := key.2.2 recordingRunner rfl
  ⟨once.1, once.2.1, once.2.2.1.trans (by decide)⟩

/-- C6. When the page has the element `loading`, `initializeEngine` resolves
to `r` and `r.runApp()` resolves: the effect trace is exactly the write
`loading.style.display := 'none'`, the call of `initializeEngine`, the call of
`runApp` on `r`; the full trace adds only the lookup and the two fulfilments;
the handler's promise is fulfilled with `undefined`; the page left is the page
`r.runApp()` left, called on the page `initializeEngine` left, called on the
page after the hide, where `loading` shows `display = 'none'`; so the page left
shows it too unless a collaborator changed that value itself. -/
theorem successful_run (ei : EngineInitializer) (document : Document)
    (loading : Nat) (r : AppRunner)
    (h : getElementById document "loading" = some loading)
    (h2 : (ei.initializeEngine (document.setStyle loading "display" "none")).2 = .fulfilled r)
    (h3 : (r.runApp (ei.initializeEngine (document.setStyle loading "display" "none")).1).2
      = .fulfilled ()) :
    effects (onEntrypointLoaded ei document).trace =
        [.setStyle loading "display" "none", .initializeEngineCalled, .runAppCalled r] ∧
      (onEntrypointLoaded ei document).trace =
        [.getElementById "loading" (some loading), .setStyle loading "display" "none",
          .initializeEngineCalled, .initializeEngineFulfilled r, .runAppCalled r,
          .runAppFulfilled] ∧
      (onEntrypointLoaded ei document).result = .fulfilled () ∧
      (onEntrypointLoaded ei document).document =
        (r.runApp (ei.initializeEngine (document.setStyle loading "display" "none")).1).1 ∧
      loadingDisplay (document.setStyle loading "display" "none") = some "none" ∧
      (loadingDisplay
          (r.runApp (ei.initializeEngine (document.setStyle loading "display" "none")).1).1 =
          loadingDisplay (document.setStyle loading "display" "none") →
        loadingDisplay (onEntrypointLoaded ei document).document = some "none") := by
  rw [onEntrypointLoaded_runAppFulfilled ei document loading r h h2 h3]
  refine ⟨rfl, rfl, rfl, rfl, loadingDisplay_setStyle document loading h, ?_⟩
  intro hkeep
  simp only [hkeep]
  exact loadingDisplay_setStyle document loading h

/-- C6 at the sample page with collaborators that each add an element to the
page when called: the three effects in order, fulfilment, and a page left with
`loading` hidden, then the engine's element, then the app's. -/
theorem successful_run_witness :
    effects (onEntrypointLoaded recordingInitializer pageWithLoading).trace =
        [.setStyle 1 "display" "none", .initializeEngineCalled,
          .runAppCalled recordingRunner] ∧
      (onEntrypointLoaded recordingInitializer pageWithLoading).result = .fulfilled () ∧
      (onEntrypointLoaded recordingInitializer pageWithLoading).document =
        [{ id := "app", style := [] },
         { id := "loading", style := [("color", "grey"), ("display", "none")] },
         { id := "engine", style := [] },
         { id := "flutter-view", style := [] }] ∧
      loadingDisplay (onEntrypointLoaded recordingInitializer pageWithLoading).document =
        some "none" :=
  have key := successful_run recordingInitializer pageWithLoading 1 recordingRunner
    (by decide) rfl rfl
  ⟨key.1, key.2.2.1, key.2.2.2.1.trans (by decide), key.2.2.2.2.2 (by decide)⟩

/-- C9. When the page has the element `loading` and `initializeEngine`
resolves to `r`: `runApp` is called exactly once and on `r`; the effect trace
is the hide, the call of `initializeEngine` and that one call on `r`, so `r`
is used for nothing else; and how the handler ends is how `r.runApp()`, called
on the page `initializeEngine` left, ends. -/
theorem runApp_called_on_resolved_runner (ei : EngineInitializer) (document : Document)
    (loading : Nat) (r : AppRunner)
    (h : getElementById document "loading" = some loading)
    (h2 : (ei.initializeEngine (document.setStyle loading "display" "none")).2
      = .fulfilled r) :
    runAppTargets (onEntrypointLoaded ei document).trace = [r] ∧
      effects (onEntrypointLoaded ei document).trace =
        [.setStyle loading "display" "none", .initializeEngineCalled, .runAppCalled r] ∧
      (onEntrypointLoaded ei document).result =
        (r.runApp (ei.initializeEngine (document.setStyle loading "display" "none")).1).2 ∧
      (onEntrypointLoaded ei document).document =
        (r.runApp (ei.initializeEngine (document.setStyle loading "display" "none")).1).1 := by
  cases h3 : (r.runApp
      (ei.initializeEngine (document.setStyle loading "display" "none")).1).2 with
  | pending =>
    rw [onEntrypointLoaded_runAppPending ei document loading r h h2 h3]
    exact ⟨rfl, rfl, rfl, rfl⟩
  | rejected e =>
    rw [onEntrypointLoaded_runAppRejected ei document loading r e h h2 h3]
    exact ⟨rfl, rfl, rfl, rfl⟩
  | fulfilled u =>
    cases u
    rw [onEntrypointLoaded_runAppFulfilled ei document loading r h h2 h3]
    exact ⟨rfl, rfl, rfl, rfl⟩

/-- C9 at the sample page with an initializer whose runner fails: `runApp` is
called on that very runner. -/
theorem runApp_called_on_resolved_runner_witness :
    runAppTargets (onEntrypointLoaded failingRunnerInitializer pageWithLoading).trace =
      [AppRunner.returning (.rejected (.thrown "app failed"))] :=
  (runApp_called_on_resolved_runner failingRunnerInitializer pageWithLoading 1
    (AppRunner.returning (.rejected (.thrown "app failed"))) (by decide) rfl).1

/-! ## The page -/

/-- With collaborators that leave the page alone, the page the handler leaves
is the page after the hide, or the page itself when `loading` is missing. -/
theorem onEntrypointLoaded_document_of_leaving (ei : EngineInitializer) (document : Document)
    (hinit : ∀ d, (ei.initializeEngine d).1 = d)
    (hrun : ∀ d r d2, (ei.initializeEngine d).2 = .fulfilled r → (r.runApp d2).1 = d2) :
    (onEntrypointLoaded ei document).document =
      match getElementById document "loading" with
      | some loading => document.setStyle loading "display" "none"
      | none => document := by
  cases h : getElementById document "loading" with
  | none => rw [onEntrypointLoaded_absent ei document h]
  | some loading =>
    cases h2 : (ei.initializeEngine (document.setStyle loading "display" "none")).2 with
    | pending =>
      rw [onEntrypointLoaded_initializePending ei document loading h h2]
      exact hinit _
    | rejected e =>
      rw [onEntrypointLoaded_initializeRejected ei document loading e h h2]
      exact hinit _
    | fulfilled r =>
      have hr := hrun _ r (document.setStyle loading "display" "none") h2
      cases h3 : (r.runApp
          (ei.initializeEngine (document.setStyle loading "display" "none")).1).2 with
      | pending =>
        rw [onEntrypointLoaded_runAppPending ei document loading r h h2 h3]
        simp only [hinit, hr]
      | rejected e =>
        rw [onEntrypointLoaded_runAppRejected ei document loading r e h h2 h3]
        simp only [hinit, hr]
      | fulfilled u =>
        cases u
        rw [onEntrypointLoaded_runAppFulfilled ei document loading r h h2 h3]
        simp only [hinit, hr]

/-- C8. For every page: (1) whatever the collaborators do, the style writes in
the handler's trace are the single write `display := 'none'` on the element
`loading`, or none when the page has no such element; (2) the old `display`
value is never read: starting from any other old value, the whole run (page
left, trace, result) is the same; (3) whatever the collaborators return, as long
as they leave the page alone themselves, the page the handler leaves has the
same number of elements, every element other than `loading` is unchanged, and
`loading` keeps its id and the value of every style property other than
`display`, which is `'none'`. -/
theorem handler_changes_only_loading_display (document : Document) :
    (∀ ei : EngineInitializer,
      (onEntrypointLoaded ei document).trace.filter Event.isStyleWrite =
        match getElementById document "loading" with
        | some loading => [Event.setStyle loading "display" "none"]
        | none => []) ∧
    (∀ (ei : EngineInitializer) (loading : Nat) (previous : String),
      getElementById document "loading" = some loading →
      onEntrypointLoaded ei (document.setStyle loading "display" previous) =
        onEntrypointLoaded ei document) ∧
    (∀ ei : EngineInitializer,
      (∀ d, (ei.initializeEngine d).1 = d) →
      (∀ d r d2, (ei.initializeEngine d).2 = .fulfilled r → (r.runApp d2).1 = d2) →
      (onEntrypointLoaded ei document).document.length = document.length ∧
      (∀ other : Nat, getElementById document "loading" ≠ some other →
        (onEntrypointLoaded ei document).document[other]? = document[other]?) ∧
      (∀ (loading : Nat) (e : Element),
        getElementById document "loading" = some loading → document[loading]? = some e →
        ∃ e2, (onEntrypointLoaded ei document).document[loading]? = some e2 ∧
          e2.id = e.id ∧ e2.style.getPropertyValue "display" = "none" ∧
          ∀ name, name ≠ "display" →
            e2.style.getPropertyValue name = e.style.getPropertyValue name)) := by
  refine ⟨?_, ?_, ?_⟩
  · intro ei
    rcases onEntrypointLoaded_trace_cases ei document with
      ⟨h0, ht⟩ | ⟨l, hl, ht | ⟨e, ht⟩ | ⟨r, ht⟩ | ⟨r, e, ht⟩ | ⟨r, ht⟩⟩
    · rw [ht, h0]; rfl
    · rw [ht, hl]; rfl
    · rw [ht, hl]; rfl
    · rw [ht, hl]; rfl
    · rw [ht, hl]; rfl
    · rw [ht, hl]; rfl
  · intro ei loading previous h
    simp only [onEntrypointLoaded, getElementById_setStyle, h, Document.setStyle_setStyle]
  · intro ei hinit hrun
    rw [onEntrypointLoaded_document_of_leaving ei document hinit hrun]
    cases h : getElementById document "loading" with
    | none =>
      refine ⟨rfl, fun _ _ => rfl, ?_⟩
      intro loading e hl
      cases hl
    | some l =>
      refine ⟨Document.length_setStyle _ _ _ _, ?_, ?_⟩
      · intro other hne
        have hne2 : other ≠ l := fun h3 => hne (by rw [h3])
        exact Document.getElem?_setStyle_ne document l other "display" "none" hne2
      · intro loading e hl he
        cases hl
        refine ⟨{ e with style := e.style.setProperty "display" "none" }, ?_, rfl, ?_, ?_⟩
        · simp only [Document.getElem?_setStyle_eq, he, Option.map_some']
        · simp [Style.getPropertyValue_setProperty]
        · intro name hname
          simp [Style.getPropertyValue_setProperty, hname]

/-- C8 at the sample page: after a successful run the element before `loading`
is what it was, and a run that starts from `display = 'block'` is the same run. -/
theorem handler_changes_only_loading_display_witness :
    (onEntrypointLoaded workingInitializer pageWithLoading).document[0]? =
        pageWithLoading[0]? ∧
      onEntrypointLoaded workingInitializer (pageWithLoading.setStyle 1 "display" "block") =
        onEntrypointLoaded workingInitializer pageWithLoading :=
  ⟨((handler_changes_only_loading_display pageWithLoading).2.2 workingInitializer
      (fun _ => rfl) (fun _ _ _ h => by cases h; rfl)).2.1 0 (by decide),
    (handler_changes_only_loading_display pageWithLoading).2.1 workingInitializer 1 "block"
      (by decide)⟩

/-! ## The script -/

/-! ## The script -/

/-- The counts of one invocation of the handler: one lookup; as many hides as
calls of `initializeEngine`; a hide exactly when the lookup did not fail; no
more calls of `runApp` than of `initializeEngine`. -/
theorem onEntrypointLoaded_counts (ei : EngineInitializer) (document : Document) :
    (onEntrypointLoaded ei document).trace.countP Event.isLookup = 1 ∧
      (onEntrypointLoaded ei document).trace.countP Event.isStyleWrite =
        (onEntrypointLoaded ei document).trace.countP Event.isInitializeEngineCall ∧
      (onEntrypointLoaded ei document).trace.countP Event.isStyleWrite +
        (onEntrypointLoaded ei document).trace.countP Event.isFailedLookup = 1 ∧
      (onEntrypointLoaded ei document).trace.countP Event.isRunAppCall ≤
        (onEntrypointLoaded ei document).trace.countP Event.isInitializeEngineCall := by
  rcases onEntrypointLoaded_trace_cases ei document with
    ⟨_, ht⟩ | ⟨l, _, ht | ⟨e, ht⟩ | ⟨r, ht⟩ | ⟨r, e, ht⟩ | ⟨r, ht⟩⟩ <;>
    rw [ht] <;>
    simp [List.countP_cons, Event.isLookup, Event.isStyleWrite, Event.isFailedLookup,
      Event.isInitializeEngineCall, Event.isRunAppCall]

/-- The same counts over all the invocations a loader makes of the handler. -/
theorem drive_counts (loader : LoaderBehaviour) (document : Document) :
    (loader.drive onEntrypointLoaded document).trace.countP Event.isLookup =
        (loader.drive onEntrypointLoaded document).invocations ∧
      (loader.drive onEntrypointLoaded document).trace.countP Event.isStyleWrite =
        (loader.drive onEntrypointLoaded document).trace.countP
          Event.isInitializeEngineCall ∧
      (loader.drive onEntrypointLoaded document).trace.countP Event.isStyleWrite +
          (loader.drive onEntrypointLoaded document).trace.countP Event.isFailedLookup =
        (loader.drive onEntrypointLoaded document).invocations ∧
      (loader.drive onEntrypointLoaded document).trace.countP Event.isRunAppCall ≤
        (loader.drive onEntrypointLoaded document).trace.countP
          Event.isInitializeEngineCall := by
  induction loader generalizing document with
  | finish => exact ⟨rfl, rfl, rfl, Nat.le_refl _⟩
  | invoke ei next ih =>
    obtain ⟨a1, a2, a3, a4⟩ := onEntrypointLoaded_counts ei document
    obtain ⟨b1, b2, b3, b4⟩ := ih (onEntrypointLoaded ei document).document
      (onEntrypointLoaded ei document).result (onEntrypointLoaded ei document).document
    simp only [LoaderBehaviour.drive, List.countP_append]
    refine ⟨?_, ?_, ?_, ?_⟩ <;> omega

/-- C10 as stated fails: a loader invokes the handler three times, with
collaborators that would succeed, on a page without the element `loading`;
the page is left as it was and the trace holds no hide, no call of
`initializeEngine` and no call of `runApp`, so none of these numbers is the
number of invocations. -/
theorem invocations_without_sequence :
    (flutter_bootstrap loaderCallingThrice pageWithoutLoading).invocations = 3 ∧
      (flutter_bootstrap loaderCallingThrice pageWithoutLoading).document =
        pageWithoutLoading ∧
      ¬ ((flutter_bootstrap loaderCallingThrice pageWithoutLoading).trace.countP
          Event.isStyleWrite =
        (flutter_bootstrap loaderCallingThrice pageWithoutLoading).invocations) ∧
      ¬ ((flutter_bootstrap loaderCallingThrice pageWithoutLoading).trace.countP
          Event.isInitializeEngineCall =
        (flutter_bootstrap loaderCallingThrice pageWithoutLoading).invocations) ∧
      ¬ ((flutter_bootstrap loaderCallingThrice pageWithoutLoading).trace.countP
          Event.isRunAppCall =
        (flutter_bootstrap loaderCallingThrice pageWithoutLoading).invocations) := by
  refine ⟨rfl, by decide, ?_, ?_, ?_⟩ <;> decide

/-- C10, amended. Running the script calls `load` exactly once, and the
configuration `load` receives carries the handler. The script itself never
invokes the handler: with a loader that never invokes it the trace is empty and
the page is left as it was; with a loader that invokes it, the script's run is
the handler's run on the page, followed by the script's run with what the
loader does next. Each invocation starts the sequence once (one lookup of
`loading`), so the lookups number the invocations; the hides are as many as the
calls of `initializeEngine`, and together with the failed lookups they number
the invocations, so they number the invocations when no lookup fails; the
calls of `runApp` are no more than those of `initializeEngine`. -/
theorem script_registers_handler_once (loader : LoaderBehaviour) (document : Document) :
    (∃ config : LoadConfig, (flutter_bootstrap loader document).loadCalls = [config] ∧
        config.onEntrypointLoaded = onEntrypointLoaded) ∧
    ((flutter_bootstrap loader document).invocations = 0 →
      (flutter_bootstrap loader document).trace = [] ∧
        (flutter_bootstrap loader document).document = document) ∧
    (∀ ei next, loader = .invoke ei next →
      (flutter_bootstrap loader document).trace =
          (onEntrypointLoaded ei document).trace ++
            (flutter_bootstrap
              (next (onEntrypointLoaded ei document).document
                (onEntrypointLoaded ei document).result)
              (onEntrypointLoaded ei document).document).trace ∧
        (flutter_bootstrap loader document).document =
          (flutter_bootstrap
            (next (onEntrypointLoaded ei document).document
              (onEntrypointLoaded ei document).result)
            (onEntrypointLoaded ei document).document).document ∧
        (flutter_bootstrap loader document).invocations =
          (flutter_bootstrap
            (next (onEntrypointLoaded ei document).document
              (onEntrypointLoaded ei document).result)
            (onEntrypointLoaded ei document).document).invocations + 1) ∧
    (flutter_bootstrap loader document).trace.countP Event.isLookup =
      (flutter_bootstrap loader document).invocations ∧
    (flutter_bootstrap loader document).trace.countP Event.isStyleWrite =
      (flutter_bootstrap loader document).trace.countP Event.isInitializeEngineCall ∧
    (flutter_bootstrap loader document).trace.countP Event.isStyleWrite +
        (flutter_bootstrap loader document).trace.countP Event.isFailedLookup =
      (flutter_bootstrap loader document).invocations ∧
    (flutter_bootstrap loader document).trace.countP Event.isRunAppCall ≤
      (flutter_bootstrap loader document).trace.countP Event.isInitializeEngineCall := by
  refine ⟨⟨{ onEntrypointLoaded := onEntrypointLoaded }, rfl, rfl⟩, ?_, ?_,
    drive_counts loader document⟩
  · intro h0
    cases loader with
    | finish => exact ⟨rfl, rfl⟩
    | invoke ei next =>
      simp [flutter_bootstrap, LoaderBehaviour.load, LoaderBehaviour.drive] at h0
  · intro ei next hloader
    subst hloader
    exact ⟨rfl, rfl, rfl⟩

/-- C10 amended, with a loader that never invokes the handler, where nothing
happens, and with a loader that invokes it once on the sample page with
collaborators that each add an element to the page when called: one run of the
sequence, one hide, and the page that run leaves. -/
theorem script_registers_handler_once_witness :
    (flutter_bootstrap .finish pageWithLoading).trace = [] ∧
      (flutter_bootstrap .finish pageWithLoading).document = pageWithLoading ∧
      (flutter_bootstrap loaderCallingOnce pageWithLoading).invocations = 1 ∧
      (flutter_bootstrap loaderCallingOnce pageWithLoading).trace.countP
        Event.isStyleWrite = 1 ∧
      (flutter_bootstrap loaderCallingOnce pageWithLoading).document =
        [{ id := "app", style := [] },
         { id := "loading", style := [("color", "grey"), ("display", "none")] },
         { id := "engine", style := [] },
         { id := "flutter-view", style := [] }] :=
  have never := (script_registers_handler_once .finish pageWithLoading).2.1 rfl
  have once := (script_registers_handler_once loaderCallingOnce pageWithLoading).2.2.1
    recordingInitializer (fun _ _ => .finish) rfl
  have counts := (script_registers_handler_once loaderCallingOnce pageWithLoading).2.2.2
  ⟨never.1, never.2, once.2.2.trans rfl, counts.2.1.trans (by decide),
    once.2.1.trans (by decide)⟩

end FlutterBootstrap
